import Mathlib

/-!
Shallow embedding of the Lattera chat client/server real-time layer.

Client side (src/Lattera/client):
* `utils/socket.ts`        — `SocketManager` (connection state machine)
* `services/socketService.ts` — `SocketService` (event router, handler sets)
* `pages/MainChat.tsx`     — UI state merge: message list, typing set, timers

Server side (src/unnamed/part_005, the messages router):
* POST /api/messages, PATCH /api/messages/:id, DELETE /api/messages/:id

Machine integers are modelled as `Nat` (timestamps in ms); JS `Date` values
become `Nat` milliseconds; `null`/`undefined` become `Option`; JS `Set`/`Map`
become duplicate-free lists / association lists; thrown errors become
explicit error values.  Mongo `ObjectId` format validation is elided (it is
a pure format check touched by no claim).  Media `metadata` records are
elided for the same reason.
-/

namespace Lattera

/-- Media attachment as it appears on the wire and in stored messages
(`type`, `url`; the optional free-form `metadata` record is elided). -/
structure Media where
  mediaType : String
  url : String
deriving DecidableEq

/-- Sender summary attached to client view-model messages
(`{id, firstName, lastName}` in `MainChat.tsx`). -/
structure Sender where
  id : String
  firstName : String
  lastName : String
deriving DecidableEq

/-- `MessageResponse` from the client's API types: what the REST list/send
endpoints and the socket `message:new` normalisation produce.  The `sender`
field is optional (the socket path omits it). -/
structure MessageResponse where
  id : String
  chatId : String
  senderId : String
  content : String
  media : Option Media
  editedAt : Option String
  deletedFor : List String
  timestamp : String
  sender : Option Sender
deriving DecidableEq

/-- `MessageWithSenderResponse`: the view-model entry held in the
`messages` state of `MainChat.tsx`. -/
structure MessageWithSender where
  id : String
  chatId : String
  senderId : String
  sender : Sender
  content : String
  media : Option Media
  editedAt : Option String
  deletedFor : List String
  timestamp : String
deriving DecidableEq

/-- The sender defaulting performed by the `onNewMessage` subscriber in
`MainChat.tsx`: `message.sender || \x7bid: senderId, firstName: '', lastName: ''\x7d`. -/
def withSender (m : MessageResponse) : MessageWithSender :=
  { id := m.id
    chatId := m.chatId
    senderId := m.senderId
    sender := m.sender.getD { id := m.senderId, firstName := "", lastName := "" }
    content := m.content
    media := m.media
    editedAt := m.editedAt
    deletedFor := m.deletedFor
    timestamp := m.timestamp }

/-- `prev.some((m) => m.id === message.id)` — id-keyed membership test. -/
def hasId (msgs : List MessageWithSender) (i : String) : Bool :=
  msgs.any (fun m => m.id == i)

/-- The `setMessages` update of the `onNewMessage` subscriber in
`MainChat.tsx` (lines 205–219): append unless the id is already present. -/
def onNewMessage (msgs : List MessageWithSender) (message : MessageResponse) :
    List MessageWithSender :=
  if hasId msgs message.id then msgs
  else msgs ++ [withSender message]

/-- The optimistic append of `handleSendMessage` (`setMessages(prev =>
[...prev, tempMessage])`, `MainChat.tsx` line 113). -/
def appendOptimistic (msgs : List MessageWithSender) (temp : MessageWithSender) :
    List MessageWithSender :=
  msgs ++ [temp]

/-- The post-REST replacement of `handleSendMessage` (`MainChat.tsx`
lines 143–156): map the entry whose id is the temp id to the confirmed
response data. -/
def applySendResponse (msgs : List MessageWithSender) (tempId : String)
    (confirmed : MessageWithSender) : List MessageWithSender :=
  msgs.map (fun m => if m.id == tempId then confirmed else m)

/-- Entries of a message list carrying a given id. -/
def entriesWithId (msgs : List MessageWithSender) (i : String) :
    List MessageWithSender :=
  msgs.filter (fun m => m.id == i)

/-! ### `SocketManager` (`src/Lattera/client/src/utils/socket.ts`)

The manager owns `socket`, `reconnectAttempts`, `maxReconnectAttempts = 5`,
and `isIntentionalDisconnect`.  A socket handle is modelled by a numeric
identity plus its `connected` flag; `io(...)` returns a fresh,
not-yet-connected handle (`connected` becomes true on the `connect` event).
`nextHandleId` models allocation of fresh handles. -/

/-- A socket.io client handle: identity plus its `connected` property. -/
structure SocketHandle where
  handleId : Nat
  connected : Bool
deriving DecidableEq

/-- The private state of the `SocketManager` singleton. -/
structure ManagerState where
  socket : Option SocketHandle
  reconnectAttempts : Nat
  maxReconnectAttempts : Nat
  isIntentionalDisconnect : Bool
  nextHandleId : Nat
deriving DecidableEq

/-- Field initialisers of `SocketManager`. -/
def initialManager : ManagerState :=
  { socket := none, reconnectAttempts := 0, maxReconnectAttempts := 5,
    isIntentionalDisconnect := false, nextHandleId := 0 }

/-- Whether `this.socket?.connected` holds. -/
def socketConnected (st : ManagerState) : Bool :=
  match st.socket with
  | some s => s.connected
  | none => false

/-- `SocketManager.connect()` (socket.ts lines 24–54).  Returns the new
manager state together with either the handle id of the returned socket or
the thrown error message.  On the early-connected return and on a throw the
state is returned unchanged. -/
def SocketManager.connect (st : ManagerState) (token : Option String) :
    ManagerState × Except String Nat :=
  match st.socket with
  | some s =>
    if s.connected then (st, .ok s.handleId)
    else
      match token with
      | none => (st, .error "No authentication token available")
      | some _ =>
        ({ st with
            socket := some { handleId := st.nextHandleId, connected := false }
            isIntentionalDisconnect := false
            nextHandleId := st.nextHandleId + 1 }, .ok st.nextHandleId)
  | none =>
    match token with
    | none => (st, .error "No authentication token available")
    | some _ =>
      ({ st with
          socket := some { handleId := st.nextHandleId, connected := false }
          isIntentionalDisconnect := false
          nextHandleId := st.nextHandleId + 1 }, .ok st.nextHandleId)

/-- `SocketManager.disconnect()` (socket.ts lines 106–112): when a socket
exists, set the intentional flag and drop the handle; otherwise do nothing. -/
def SocketManager.disconnect (st : ManagerState) : ManagerState :=
  match st.socket with
  | some _ => { st with isIntentionalDisconnect := true, socket := none }
  | none => st

/-- The `connect` event handler (socket.ts lines 59–62) together with the
transport effect of the event: the socket is now connected and
`reconnectAttempts` is reset to 0. -/
def onConnect (st : ManagerState) : ManagerState :=
  { st with
      socket := st.socket.map (fun s => { s with connected := true })
      reconnectAttempts := 0 }

/-- The `connect_error` handler (socket.ts lines 74–82): increment the
attempt counter and, when it reaches `maxReconnectAttempts`, call
`disconnect()`. -/
def onConnectError (st : ManagerState) : ManagerState :=
  let st' := { st with reconnectAttempts := st.reconnectAttempts + 1 }
  if st'.maxReconnectAttempts ≤ st'.reconnectAttempts then SocketManager.disconnect st'
  else st'

/-- The `disconnect` event handler (socket.ts lines 64–72) together with the
transport effect (socket no longer connected).  The returned `Bool` records
whether a `setTimeout(connect, reconnectDelay)` was scheduled: only for
reason `io server disconnect` with the intentional flag unset. -/
def onDisconnectEvent (st : ManagerState) (reason : String) : ManagerState × Bool :=
  ({ st with socket := st.socket.map (fun s => { s with connected := false }) },
    reason == "io server disconnect" && !st.isIntentionalDisconnect)

/-- Outcome of `SocketManager.emit` (socket.ts lines 122–128): the event is
either forwarded to the transport with its payload, or dropped with a
console warning naming the event. -/
inductive EmitOutcome (α : Type) where
  | sent (event : String) (payload : α)
  | warnedNotConnected (event : String)
deriving DecidableEq

/-- `SocketManager.emit(event, data)`: forward when `this.socket?.connected`,
otherwise warn and drop.  A total function: it never throws. -/
def SocketManager.emit (st : ManagerState) (event : String) (payload : α) :
    EmitOutcome α :=
  if socketConnected st then .sent event payload
  else .warnedNotConnected event

/-! ### `SocketService` (`src/Lattera/client/src/services/socketService.ts`)

The service holds five handler `Set`s, one per event kind; handlers are
modelled by opaque numeric identities, a `Set` by a list of them. -/

/-- The `SocketService` state: the underlying manager plus the five handler
sets. -/
structure ServiceState where
  manager : ManagerState
  messageHandlers : List Nat
  userStatusHandlers : List Nat
  typingHandlers : List Nat
  messageEditedHandlers : List Nat
  messageDeletedHandlers : List Nat
deriving DecidableEq

/-- `SocketService.disconnect()` (socketService.ts lines 106–113): delegate
to `socketManager.disconnect()` and clear all five handler sets. -/
def SocketService.disconnect (st : ServiceState) : ServiceState :=
  { manager := SocketManager.disconnect st.manager
    messageHandlers := []
    userStatusHandlers := []
    typingHandlers := []
    messageEditedHandlers := []
    messageDeletedHandlers := [] }

/-- `SocketService.emitTyping(chatId)`: forwards `user:typing` with the chat
id payload through `socketManager.emit`. -/
def SocketService.emitTyping (st : ServiceState) (chatId : String) :
    EmitOutcome String :=
  SocketManager.emit st.manager "user:typing" chatId

/-- `SocketService.emitStopTyping(chatId)`: forwards `user:stop-typing`. -/
def SocketService.emitStopTyping (st : ServiceState) (chatId : String) :
    EmitOutcome String :=
  SocketManager.emit st.manager "user:stop-typing" chatId

/-! ### Wire events (`socketService.ts`) -/

/-- Payload of the wire `message:new` event (`SocketNewMessageEvent.data`). -/
structure WireNewMessageData where
  messageId : String
  chatId : String
  senderId : String
  content : String
  timestamp : String
  media : Option Media
deriving DecidableEq

/-- The `message:new` normalisation in `SocketService.initialize`
(socketService.ts lines 66–79): the pushed message is presented with
`editedAt = null`, `deletedFor = []` and `media = event.data.media || null`. -/
def toMessageResponse (d : WireNewMessageData) : MessageResponse :=
  { id := d.messageId
    chatId := d.chatId
    senderId := d.senderId
    content := d.content
    media := d.media
    editedAt := none
    deletedFor := []
    timestamp := d.timestamp
    sender := none }

/-! ### Typing indicator state (`MainChat.tsx` lines 257–291)

`typingUsers` is a `Set<string>`, `typingTimeoutRef` a `Map` from user id to
an armed timeout; a timeout is modelled by its absolute fire time in ms.
Time semantics: at (observed) time `t` every armed timer with fire time
≤ `t` has fired; each timer callback deletes its user from the set and its
own map entry. -/

/-- Payload of the wire `user:typing` event. -/
structure TypingEventIn where
  userId : String
  chatId : String
  isTyping : Bool
deriving DecidableEq

/-- The typing indicator state: the `typingUsers` set and the per-user timer
map (user id ↦ absolute fire time in ms). -/
structure TypingView where
  typingUsers : List String
  timers : List (String × Nat)
deriving DecidableEq

/-- Initial state: empty set, empty timer map. -/
def emptyTypingView : TypingView := { typingUsers := [], timers := [] }

/-- `new Set(prev).add(u)` — add the element unless already present. -/
def addUser (users : List String) (u : String) : List String :=
  if users.contains u then users else users ++ [u]

/-- The `onTyping` subscriber at current time `now` (ms): events for chats
other than the selected one are ignored; `isTyping=true` adds the user and
re-arms their 5000 ms timer, clearing any prior timer for the same user
first; `isTyping=false` removes the user immediately and clears their
pending timer. -/
def onTypingEvent (selectedChatId : String) (st : TypingView)
    (ev : TypingEventIn) (now : Nat) : TypingView :=
  if ev.chatId ≠ selectedChatId then st
  else if ev.isTyping then
    { typingUsers := addUser st.typingUsers ev.userId
      timers := st.timers.filter (fun p => decide (p.1 ≠ ev.userId)) ++
        [(ev.userId, now + 5000)] }
  else
    { typingUsers := st.typingUsers.filter (fun u => decide (u ≠ ev.userId))
      timers := st.timers.filter (fun p => decide (p.1 ≠ ev.userId)) }

/-- Fire every timer due by time `t`: each due timer's callback removes its
user from `typingUsers` and deletes its own map entry. -/
def fireDue (st : TypingView) (t : Nat) : TypingView :=
  { typingUsers := st.typingUsers.filter
      (fun u => !(st.timers.any (fun p => decide (p.1 = u ∧ p.2 ≤ t))))
    timers := st.timers.filter (fun p => decide (t < p.2)) }

/-- One observed client step: the timers due by time `q.1` fire, then the
signal arriving at `q.1` is handled. -/
def typingStep (selectedChatId : String) (st : TypingView)
    (q : Nat × TypingEventIn) : TypingView :=
  onTypingEvent selectedChatId (fireDue st q.1) q.2 q.1

/-- Run a timed trace of typing signals from the empty view. -/
def runTypingTrace (selectedChatId : String)
    (evs : List (Nat × TypingEventIn)) : TypingView :=
  evs.foldl (typingStep selectedChatId) emptyTypingView

/-- Observe the view at time `t`: all timers due by `t` have fired. -/
def observeTyping (selectedChatId : String) (evs : List (Nat × TypingEventIn))
    (t : Nat) : TypingView :=
  fireDue (runTypingTrace selectedChatId evs) t

/-- Invariant: every user in the typing set has an armed timer. -/
def Covered (st : TypingView) : Prop :=
  ∀ u ∈ st.typingUsers, ∃ e, (u, e) ∈ st.timers

/-- Invariant: every armed timer fires 5000 ms after some `isTyping=true`
signal of the trace for the open chat by that user. -/
def TimersFrom (sel : String) (evs : List (Nat × TypingEventIn))
    (st : TypingView) : Prop :=
  ∀ p ∈ st.timers, ∃ q ∈ evs, q.2.userId = p.1 ∧ q.2.chatId = sel ∧
    q.2.isTyping = true ∧ p.2 = q.1 + 5000

/-! ### Server messages router (`src/unnamed/part_005`)

Persisted documents become Lean structures; `Date.now()` and stored
timestamps are `Nat` milliseconds (JS negative ages cannot make the
staleness checks fire, and neither can truncated `Nat` subtraction, so the
outcomes agree).  Mongo `ObjectId` format validation and the chat
`lastMessage` denormalisation are elided — no claim touches them. -/

/-- A persisted message document (the `Message` model). -/
structure StoredMessage where
  id : String
  chatId : String
  senderId : String
  content : String
  media : Option Media
  editedAt : Option Nat
  deletedFor : List String
  timestamp : Nat
deriving DecidableEq

/-- A persisted chat document: id and participant user ids. -/
structure ChatDoc where
  id : String
  participants : List String
deriving DecidableEq

/-- The error classes thrown by the router (`BadRequestError`,
`NotFoundError`, `ForbiddenError`). -/
inductive ApiError where
  | badRequest (msg : String)
  | notFound (msg : String)
  | forbidden (msg : String)
deriving DecidableEq

/-- Payload of `socketHandler.broadcastNewMessage` (part_005 lines 215–221). -/
structure NewMessageBroadcast where
  messageId : String
  chatId : String
  senderId : String
  content : String
  timestamp : Nat
deriving DecidableEq

/-- Payload of `socketHandler.broadcastEditedMessage` (part_005 lines
545–550). -/
structure EditedMessageBroadcast where
  messageId : String
  chatId : String
  content : String
  editedAt : Nat
deriving DecidableEq

/-- Payload of `socketHandler.broadcastDeletedMessage` (part_005 lines
686–689). -/
structure DeletedMessageBroadcast where
  messageId : String
  chatId : String
deriving DecidableEq

/-- Whitespace for the purposes of `String.prototype.trim` (restricted to
the ASCII whitespace actually occurring in chat payloads). -/
def isWhitespaceChar (c : Char) : Bool :=
  c == ' ' || c == '\t' || c == '\n' || c == '\r'

/-- JS `s.trim()`: strip leading and trailing whitespace. -/
def jsTrim (s : String) : String :=
  String.mk
    (((s.data.dropWhile isWhitespaceChar).reverse.dropWhile
      isWhitespaceChar).reverse)

/-- 15 minutes in milliseconds — the edit window. -/
def fifteenMinutesInMs : Nat := 15 * 60 * 1000

/-- 24 hours in milliseconds — the delete-for-all window. -/
def twentyFourHoursInMs : Nat := 24 * 60 * 60 * 1000

/-- POST /api/messages (part_005 lines 130–238).  `handlerAvailable` models
`getSocketHandler()` returning non-null; `newId` is the id Mongo assigns to
the created document.  Returns the new message collection, the broadcast
issued (if any), and the response: the created document or the thrown
error. -/
def createMessage (handlerAvailable : Bool) (chats : List ChatDoc)
    (db : List StoredMessage) (newId chatId callerId : String)
    (content : Option String) (media : Option Media) (now : Nat) :
    List StoredMessage × Option NewMessageBroadcast ×
      Except ApiError StoredMessage :=
  if chatId = "" then (db, none, .error (.badRequest "chatId is required"))
  else
    let trimmedContent := jsTrim (content.getD "")
    if trimmedContent = "" ∧ media = none then
      (db, none, .error (.badRequest "Either content or media must be provided"))
    else if 5000 < trimmedContent.length then
      (db, none, .error (.badRequest "Content must not exceed 5000 characters"))
    else
      let mediaCheck : Option ApiError :=
        match media with
        | none => none
        | some m =>
          if ¬ (["image", "audio", "video"].contains m.mediaType) then
            some (.badRequest "Invalid media type. Must be image, audio, or video")
          else if m.url = "" then some (.badRequest "Media URL is required")
          else if 1000 < m.url.length then
            some (.badRequest "Media URL must not exceed 1000 characters")
          else none
      match mediaCheck with
      | some e => (db, none, .error e)
      | none =>
        match chats.find? (fun c => c.id == chatId) with
        | none => (db, none, .error (.notFound "Chat not found"))
        | some chat =>
          if ¬ chat.participants.contains callerId then
            (db, none, .error (.forbidden "You are not a participant of this chat"))
          else
            let newMessage : StoredMessage :=
              { id := newId, chatId := chatId, senderId := callerId,
                content := trimmedContent, media := media, editedAt := none,
                deletedFor := [], timestamp := now }
            (db ++ [newMessage],
              if handlerAvailable then
                some { messageId := newId, chatId := chatId,
                       senderId := callerId, content := trimmedContent,
                       timestamp := now }
              else none,
              .ok newMessage)

/-- PATCH /api/messages/:messageId (part_005 lines 481–562).  On success the
stored document gets the trimmed content and `editedAt = now`, and the
`message:edited` broadcast carries `\x7bmessageId, chatId, content, editedAt\x7d`. -/
def patchMessage (handlerAvailable : Bool) (db : List StoredMessage)
    (messageId callerId content : String) (now : Nat) :
    List StoredMessage × Option EditedMessageBroadcast ×
      Except ApiError StoredMessage :=
  if content = "" then (db, none, .error (.badRequest "content is required"))
  else
    let trimmedContent := jsTrim content
    if trimmedContent = "" then
      (db, none, .error (.badRequest "content cannot be empty"))
    else if 5000 < trimmedContent.length then
      (db, none, .error (.badRequest "Content must not exceed 5000 characters"))
    else
      match db.find? (fun m => m.id == messageId) with
      | none => (db, none, .error (.notFound "Message not found"))
      | some message =>
        if message.senderId ≠ callerId then
          (db, none, .error (.forbidden "You can only edit your own messages"))
        else if fifteenMinutesInMs < now - message.timestamp then
          (db, none,
            .error (.forbidden
              "Messages can only be edited within 15 minutes of sending"))
        else
          let updated : StoredMessage :=
            { message with content := trimmedContent, editedAt := some now }
          (db.map (fun m => if m.id == messageId then updated else m),
            if handlerAvailable then
              some { messageId := message.id, chatId := message.chatId,
                     content := trimmedContent, editedAt := now }
            else none,
            .ok updated)

/-- DELETE /api/messages/:messageId?forAll=... (part_005 lines 620–713).
`forAll=true` hard-deletes (sender only, within 24 h) and broadcasts
`message:deleted`; `forAll=false` soft-deletes by adding the caller to
`deletedFor` and never broadcasts. -/
def deleteMessage (handlerAvailable : Bool) (chats : List ChatDoc)
    (db : List StoredMessage) (messageId callerId : String) (forAll : Bool)
    (now : Nat) :
    List StoredMessage × Option DeletedMessageBroadcast ×
      Except ApiError Unit :=
  match db.find? (fun m => m.id == messageId) with
  | none => (db, none, .error (.notFound "Message not found"))
  | some message =>
    match chats.find? (fun c => c.id == message.chatId) with
    | none => (db, none, .error (.notFound "Chat not found"))
    | some chat =>
      if ¬ chat.participants.contains callerId then
        (db, none, .error (.forbidden "You are not a participant of this chat"))
      else if forAll then
        if message.senderId ≠ callerId then
          (db, none,
            .error (.forbidden "Only the sender can delete message for everyone"))
        else if twentyFourHoursInMs < now - message.timestamp then
          (db, none,
            .error (.forbidden
              "Messages can only be deleted for everyone within 24 hours of sending"))
        else
          (db.filter (fun m => decide (m.id ≠ messageId)),
            if handlerAvailable then
              some { messageId := messageId, chatId := message.chatId }
            else none,
            .ok ())
      else
        let updated : StoredMessage :=
          if message.deletedFor.contains callerId then message
          else { message with deletedFor := message.deletedFor ++ [callerId] }
        (db.map (fun m => if m.id == messageId then updated else m), none, .ok ())

end Lattera

namespace Lattera

theorem withSender_id (m : MessageResponse) : (withSender m).id = m.id := rfl

theorem hasId_append (msgs ms : List MessageWithSender) (i : String) :
    hasId (msgs ++ ms) i = (hasId msgs i || hasId ms i) := by
  simp [hasId]

theorem hasId_eq_false_iff (msgs : List MessageWithSender) (i : String) :
    hasId msgs i = false ↔ ∀ m ∈ msgs, m.id ≠ i := by
  simp [hasId]

theorem entriesWithId_append (msgs ms : List MessageWithSender) (i : String) :
    entriesWithId (msgs ++ ms) i = entriesWithId msgs i ++ entriesWithId ms i := by
  simp [entriesWithId]

theorem entriesWithId_nil_of_not_hasId (msgs : List MessageWithSender) (i : String)
    (h : hasId msgs i = false) : entriesWithId msgs i = [] := by
  rw [hasId_eq_false_iff] at h
  simp only [entriesWithId, List.filter_eq_nil_iff]
  intro m hm
  simpa using h m hm

theorem onNewMessage_present (msgs : List MessageWithSender) (m : MessageResponse)
    (h : hasId msgs m.id = true) : onNewMessage msgs m = msgs := by
  rw [onNewMessage, if_pos h]

theorem onNewMessage_not_present (msgs : List MessageWithSender) (m : MessageResponse)
    (h : hasId msgs m.id = false) : onNewMessage msgs m = msgs ++ [withSender m] := by
  rw [onNewMessage, if_neg (by simp [h])]

/-- C3: delivering the same `message:new` event twice is idempotent on the
message list — the second application leaves the list unchanged — and when
the id was not present before, the list after the (repeated) delivery holds
exactly one entry for that id. -/
theorem onNewMessage_idempotent (msgs : List MessageWithSender) (m : MessageResponse) :
    onNewMessage (onNewMessage msgs m) m = onNewMessage msgs m ∧
      (hasId msgs m.id = false →
        entriesWithId (onNewMessage (onNewMessage msgs m) m) m.id = [withSender m]) := by
  have h2 : hasId (msgs ++ [withSender m]) m.id = true := by
    simp [hasId_append, hasId, withSender_id]
  constructor
  · by_cases h : hasId msgs m.id
    · rw [onNewMessage_present msgs m h, onNewMessage_present msgs m h]
    · simp only [Bool.not_eq_true] at h
      rw [onNewMessage_not_present msgs m h, onNewMessage_present _ m h2]
  · intro h
    rw [onNewMessage_not_present msgs m h, onNewMessage_present _ m h2,
      entriesWithId_append, entriesWithId_nil_of_not_hasId msgs m.id h]
    simp [entriesWithId, withSender_id]

theorem applySendResponse_of_forall_ne (msgs : List MessageWithSender)
    (tempId : String) (confirmed : MessageWithSender)
    (h : ∀ m ∈ msgs, m.id ≠ tempId) :
    applySendResponse msgs tempId confirmed = msgs := by
  induction msgs with
  | nil => rfl
  | cons a as ih =>
    have ha : (a.id == tempId) = false := by
      simpa using h a (List.mem_cons_self a as)
    have hs := ih (fun m hm => h m (List.mem_cons_of_mem a hm))
    simp only [applySendResponse, List.map_cons] at hs ⊢
    rw [ha, hs]
    rfl

theorem applySendResponse_append (xs ys : List MessageWithSender)
    (tempId : String) (confirmed : MessageWithSender) :
    applySendResponse (xs ++ ys) tempId confirmed =
      applySendResponse xs tempId confirmed ++
        applySendResponse ys tempId confirmed := by
  simp [applySendResponse]

/-- C1 counterexample: with an empty list, an optimistic entry `temp-1`, and
a `message:new` echo `m1` that arrives before the REST response, the echo is
appended (its id is not yet present) and the REST replacement then turns the
temp entry into a second copy — the final list carries two entries with the
confirmed id `m1`, not exactly one. -/
theorem optimistic_echo_first_duplicates :
    (entriesWithId
        (applySendResponse
          (onNewMessage
            (appendOptimistic []
              { id := "temp-1", chatId := "c1", senderId := "u1",
                sender := { id := "u1", firstName := "A", lastName := "B" },
                content := "hi", media := none, editedAt := none,
                deletedFor := [], timestamp := "t0" })
            (toMessageResponse
              { messageId := "m1", chatId := "c1", senderId := "u1",
                content := "hi", timestamp := "t1", media := none }))
          "temp-1"
          { id := "m1", chatId := "c1", senderId := "u1",
            sender := { id := "u1", firstName := "A", lastName := "B" },
            content := "hi", media := none, editedAt := none,
            deletedFor := [], timestamp := "t1" })
        "m1").length = 2 ∧
      ¬ (entriesWithId
        (applySendResponse
          (onNewMessage
            (appendOptimistic []
              { id := "temp-1", chatId := "c1", senderId := "u1",
                sender := { id := "u1", firstName := "A", lastName := "B" },
                content := "hi", media := none, editedAt := none,
                deletedFor := [], timestamp := "t0" })
            (toMessageResponse
              { messageId := "m1", chatId := "c1", senderId := "u1",
                content := "hi", timestamp := "t1", media := none }))
          "temp-1"
          { id := "m1", chatId := "c1", senderId := "u1",
            sender := { id := "u1", firstName := "A", lastName := "B" },
            content := "hi", media := none, editedAt := none,
            deletedFor := [], timestamp := "t1" })
        "m1").length = 1 := by
  exact ⟨rfl, by decide⟩

/-- C1 (amended): when the REST response is applied before the echo arrives,
the optimistic entry is replaced by the confirmed data and the echo is
deduplicated by id, leaving exactly one entry with the confirmed id; when
the echo arrives before the REST response, the echo is appended alongside
the optimistic entry and the later replacement leaves two entries with the
confirmed id. -/
theorem optimistic_send_orders (msgs : List MessageWithSender)
    (temp confirmed : MessageWithSender) (echo : MessageResponse)
    (hTempFresh : hasId msgs temp.id = false)
    (hConfFresh : hasId msgs confirmed.id = false)
    (hEcho : echo.id = confirmed.id)
    (hNe : confirmed.id ≠ temp.id) :
    entriesWithId
        (onNewMessage
          (applySendResponse (appendOptimistic msgs temp) temp.id confirmed)
          echo)
        confirmed.id = [confirmed] ∧
      applySendResponse (onNewMessage (appendOptimistic msgs temp) echo)
          temp.id confirmed = msgs ++ [confirmed, withSender echo] ∧
      entriesWithId
        (applySendResponse (onNewMessage (appendOptimistic msgs temp) echo)
          temp.id confirmed)
        confirmed.id = [confirmed, withSender echo] := by
  have hTempNe : ∀ m ∈ msgs, m.id ≠ temp.id := (hasId_eq_false_iff _ _).1 hTempFresh
  have h1 : applySendResponse (appendOptimistic msgs temp) temp.id confirmed
      = msgs ++ [confirmed] := by
    rw [appendOptimistic, applySendResponse_append,
      applySendResponse_of_forall_ne msgs temp.id confirmed hTempNe]
    simp [applySendResponse]
  have hConfEntries : entriesWithId (msgs ++ [confirmed]) confirmed.id
      = [confirmed] := by
    rw [entriesWithId_append, entriesWithId_nil_of_not_hasId msgs _ hConfFresh]
    simp [entriesWithId]
  have hEchoPresent : hasId (msgs ++ [confirmed]) echo.id = true := by
    rw [hEcho, hasId_append, hConfFresh]
    simp [hasId]
  have h2 : onNewMessage (appendOptimistic msgs temp) echo
      = (msgs ++ [temp]) ++ [withSender echo] := by
    apply onNewMessage_not_present
    rw [appendOptimistic, hasId_append, hEcho, hConfFresh]
    simp [hasId]
    exact fun h => hNe h.symm
  have hws : (withSender echo).id ≠ temp.id := by
    rw [withSender_id, hEcho]; exact hNe
  have hbeq : ((withSender echo).id == temp.id) = false := by simpa using hws
  have hA : applySendResponse [temp] temp.id confirmed = [confirmed] := by
    simp [applySendResponse]
  have hB : applySendResponse [withSender echo] temp.id confirmed
      = [withSender echo] := by
    simp only [applySendResponse, List.map_cons, List.map_nil, hbeq]
    simp
  have hFull : applySendResponse (onNewMessage (appendOptimistic msgs temp) echo)
      temp.id confirmed = msgs ++ [confirmed, withSender echo] := by
    rw [h2, applySendResponse_append, applySendResponse_append,
      applySendResponse_of_forall_ne msgs temp.id confirmed hTempNe, hA, hB,
      List.append_assoc]
    rfl
  refine ⟨?_, hFull, ?_⟩
  · rw [h1, onNewMessage_present _ _ hEchoPresent, hConfEntries]
  · rw [hFull]
    rw [entriesWithId_append, entriesWithId_nil_of_not_hasId msgs _ hConfFresh]
    simp [entriesWithId, withSender_id, hEcho]

/-- C1 witness: concrete REST-first run — one confirmed entry only. -/
theorem optimistic_send_orders_witness :
    entriesWithId
        (onNewMessage
          (applySendResponse
            (appendOptimistic []
              { id := "temp-1", chatId := "c1", senderId := "u1",
                sender := { id := "u1", firstName := "A", lastName := "B" },
                content := "hi", media := none, editedAt := none,
                deletedFor := [], timestamp := "t0" })
            "temp-1"
            { id := "m1", chatId := "c1", senderId := "u1",
              sender := { id := "u1", firstName := "A", lastName := "B" },
              content := "hi", media := none, editedAt := none,
              deletedFor := [], timestamp := "t1" })
          (toMessageResponse
            { messageId := "m1", chatId := "c1", senderId := "u1",
              content := "hi", timestamp := "t1", media := none }))
        "m1" =
      [{ id := "m1", chatId := "c1", senderId := "u1",
          sender := { id := "u1", firstName := "A", lastName := "B" },
          content := "hi", media := none, editedAt := none,
          deletedFor := [], timestamp := "t1" }] :=
  (optimistic_send_orders []
    { id := "temp-1", chatId := "c1", senderId := "u1",
      sender := { id := "u1", firstName := "A", lastName := "B" },
      content := "hi", media := none, editedAt := none,
      deletedFor := [], timestamp := "t0" }
    { id := "m1", chatId := "c1", senderId := "u1",
      sender := { id := "u1", firstName := "A", lastName := "B" },
      content := "hi", media := none, editedAt := none,
      deletedFor := [], timestamp := "t1" }
    (toMessageResponse
      { messageId := "m1", chatId := "c1", senderId := "u1",
        content := "hi", timestamp := "t1", media := none })
    rfl rfl rfl (by decide)).1

/-- C10: every message delivered through the `message:new` push path is
presented with `editedAt = null`, `deletedFor = []`, and `media` equal to
the wire payload's media (or null) — always unedited and undeleted. -/
theorem pushed_message_defaults (d : WireNewMessageData) :
    (toMessageResponse d).editedAt = none ∧
      (toMessageResponse d).deletedFor = [] ∧
      (toMessageResponse d).media = d.media :=
  ⟨rfl, rfl, rfl⟩

/-- C4: `connect()` with an already connected socket returns the existing
handle and leaves the whole manager state unchanged (no new handle is
allocated); with no stored token and no connected socket it throws
`No authentication token available` with the state unchanged — the failure
happens before any connection attempt. -/
theorem connect_idempotent_and_fail_fast (st : ManagerState) :
    (∀ s, st.socket = some s → s.connected = true →
      ∀ token, SocketManager.connect st token = (st, .ok s.handleId)) ∧
    (socketConnected st = false →
      SocketManager.connect st none =
        (st, .error "No authentication token available")) := by
  constructor
  · intro s hs hc token
    simp [SocketManager.connect, hs, hc]
  · intro h
    unfold SocketManager.connect
    cases hs : st.socket with
    | none => rfl
    | some s =>
      have hc : s.connected = false := by simpa [socketConnected, hs] using h
      simp [hc]

/-- C4 witness: a concrete connected manager and a concrete token-less
fresh manager. -/
theorem connect_idempotent_and_fail_fast_witness :
    SocketManager.connect
        { socket := some { handleId := 7, connected := true },
          reconnectAttempts := 2, maxReconnectAttempts := 5,
          isIntentionalDisconnect := false, nextHandleId := 8 } (some "tok") =
      ({ socket := some { handleId := 7, connected := true },
          reconnectAttempts := 2, maxReconnectAttempts := 5,
          isIntentionalDisconnect := false, nextHandleId := 8 }, .ok 7) ∧
    SocketManager.connect initialManager none =
      (initialManager, .error "No authentication token available") :=
  ⟨(connect_idempotent_and_fail_fast _).1 _ rfl rfl (some "tok"),
    (connect_idempotent_and_fail_fast initialManager).2 rfl⟩

/-- C7: emitting with no connected socket is a silent no-op (a warning
outcome carrying the event name, nothing sent, no exception — `emit` is a
total function on the state); with a connected socket the event and payload
are forwarded unchanged.  The same holds for the service-level
`emitTyping` / `emitStopTyping` wrappers. -/
theorem emit_without_connection {α : Type} (st : ManagerState) (sst : ServiceState)
    (event : String) (payload : α) (chatId : String) :
    (socketConnected st = false →
      SocketManager.emit st event payload = .warnedNotConnected event) ∧
    (socketConnected st = true →
      SocketManager.emit st event payload = .sent event payload) ∧
    (socketConnected sst.manager = false →
      SocketService.emitTyping sst chatId =
          EmitOutcome.warnedNotConnected "user:typing" ∧
        SocketService.emitStopTyping sst chatId =
          EmitOutcome.warnedNotConnected "user:stop-typing") ∧
    (socketConnected sst.manager = true →
      SocketService.emitTyping sst chatId = EmitOutcome.sent "user:typing" chatId ∧
        SocketService.emitStopTyping sst chatId =
          EmitOutcome.sent "user:stop-typing" chatId) := by
  refine ⟨fun h => ?_, fun h => ?_, fun h => ⟨?_, ?_⟩, fun h => ⟨?_, ?_⟩⟩ <;>
    simp [SocketManager.emit, SocketService.emitTyping, SocketService.emitStopTyping, h]

/-- C7 witness: concrete disconnected and connected managers. -/
theorem emit_without_connection_witness :
    SocketManager.emit initialManager "user:typing" "c1" =
        EmitOutcome.warnedNotConnected "user:typing" ∧
      SocketService.emitStopTyping
        { manager :=
            { socket := some { handleId := 0, connected := true },
              reconnectAttempts := 0, maxReconnectAttempts := 5,
              isIntentionalDisconnect := false, nextHandleId := 1 },
          messageHandlers := [], userStatusHandlers := [], typingHandlers := [],
          messageEditedHandlers := [], messageDeletedHandlers := [] } "c1" =
        EmitOutcome.sent "user:stop-typing" "c1" :=
  ⟨(emit_without_connection initialManager
      { manager := initialManager, messageHandlers := [], userStatusHandlers := [],
        typingHandlers := [], messageEditedHandlers := [],
        messageDeletedHandlers := [] } "user:typing" "c1" "c1").1 rfl,
    ((emit_without_connection initialManager
      { manager :=
          { socket := some { handleId := 0, connected := true },
            reconnectAttempts := 0, maxReconnectAttempts := 5,
            isIntentionalDisconnect := false, nextHandleId := 1 },
        messageHandlers := [], userStatusHandlers := [], typingHandlers := [],
        messageEditedHandlers := [], messageDeletedHandlers := [] }
      "user:typing" "c1" "c1").2.2.2 rfl).2⟩

/-- C2 counterexample: the claim says a manual `connect()` after exhaustion
resets the attempt counter to zero; in the code `connect()` never touches
`reconnectAttempts` (only the `connect` success handler does), so after five
`connect_error`s the counter is still 5 right after the manual `connect()`
call. -/
theorem connect_does_not_reset_counter :
    ((SocketManager.connect
        (onConnectError (onConnectError (onConnectError (onConnectError
          (onConnectError (SocketManager.connect initialManager (some "t")).1)))))
        (some "t")).1).reconnectAttempts = 5 ∧
      ¬ ((SocketManager.connect
        (onConnectError (onConnectError (onConnectError (onConnectError
          (onConnectError (SocketManager.connect initialManager (some "t")).1)))))
        (some "t")).1).reconnectAttempts = 0 := by
  exact ⟨rfl, by decide⟩

/-- C2 (amended): after 5 consecutive `connect_error`s with the cap at 5,
the manager is terminally disconnected (no socket, intentional flag set),
no transport close schedules a further reconnect, a subsequent manual
`connect()` succeeds but leaves the attempt counter at 5, and the counter
returns to 0 only when that connection's `connect` success event fires. -/
theorem reconnect_cap_terminal (st : ManagerState) (s : SocketHandle)
    (hs : st.socket = some s) (ha : st.reconnectAttempts = 0)
    (hm : st.maxReconnectAttempts = 5) :
    (onConnectError (onConnectError (onConnectError (onConnectError
        (onConnectError st))))).socket = none ∧
    (onConnectError (onConnectError (onConnectError (onConnectError
        (onConnectError st))))).isIntentionalDisconnect = true ∧
    (∀ reason,
      (onDisconnectEvent (onConnectError (onConnectError (onConnectError
        (onConnectError (onConnectError st))))) reason).2 = false) ∧
    (∀ tok,
      ((SocketManager.connect (onConnectError (onConnectError (onConnectError
        (onConnectError (onConnectError st))))) (some tok)).1).reconnectAttempts
        = 5) ∧
    (∀ tok,
      (onConnect ((SocketManager.connect (onConnectError (onConnectError
        (onConnectError (onConnectError (onConnectError st))))) (some tok)).1)
        ).reconnectAttempts = 0) := by
  have he : onConnectError (onConnectError (onConnectError (onConnectError
      (onConnectError st)))) =
      { st with
          socket := none, reconnectAttempts := 5,
          isIntentionalDisconnect := true } := by
    simp [onConnectError, SocketManager.disconnect, hs, ha, hm]
  refine ⟨by rw [he], by rw [he], fun reason => by rw [he]; simp [onDisconnectEvent],
    fun tok => by rw [he]; rfl, fun tok => by rw [he]; rfl⟩

/-- C2 witness: the concrete exhaustion run from a fresh connect. -/
theorem reconnect_cap_terminal_witness :
    (SocketManager.connect initialManager (some "t")).1.socket =
        some { handleId := 0, connected := false } ∧
      (onConnectError (onConnectError (onConnectError (onConnectError
        (onConnectError (SocketManager.connect initialManager (some "t")).1)))
        )).socket = none :=
  ⟨rfl,
    (reconnect_cap_terminal (SocketManager.connect initialManager (some "t")).1
      { handleId := 0, connected := false } rfl rfl rfl).1⟩

/-- C8 counterexample: the claim says `disconnect()` always leaves the
intentional-disconnect flag set, but `SocketManager.disconnect` only sets it
when a socket handle exists; a service disconnected before any transport was
created keeps the flag `false`. -/
theorem service_disconnect_no_socket_flag_unset :
    (SocketService.disconnect
        { manager := initialManager, messageHandlers := [1],
          userStatusHandlers := [], typingHandlers := [],
          messageEditedHandlers := [],
          messageDeletedHandlers := [] }).manager.isIntentionalDisconnect
      = false := rfl

/-- C8 (amended): after `SocketService.disconnect()` all five handler sets
are empty and the transport handle is gone (socket `none`); whenever a
transport handle existed at the call, the intentional-disconnect flag is set
and no transport close can schedule an automatic reconnect. -/
theorem service_disconnect_teardown (st : ServiceState) :
    (SocketService.disconnect st).messageHandlers = [] ∧
    (SocketService.disconnect st).userStatusHandlers = [] ∧
    (SocketService.disconnect st).typingHandlers = [] ∧
    (SocketService.disconnect st).messageEditedHandlers = [] ∧
    (SocketService.disconnect st).messageDeletedHandlers = [] ∧
    (SocketService.disconnect st).manager.socket = none ∧
    (st.manager.socket.isSome = true →
      (SocketService.disconnect st).manager.isIntentionalDisconnect = true ∧
      ∀ reason,
        (onDisconnectEvent (SocketService.disconnect st).manager reason).2
          = false) := by
  refine ⟨rfl, rfl, rfl, rfl, rfl, ?_, ?_⟩
  · cases hs : st.manager.socket <;>
      simp [SocketService.disconnect, SocketManager.disconnect, hs]
  · intro h
    cases hs : st.manager.socket with
    | none => rw [hs] at h; simp at h
    | some s =>
      constructor
      · simp [SocketService.disconnect, SocketManager.disconnect, hs]
      · intro reason
        simp [SocketService.disconnect, SocketManager.disconnect, hs,
          onDisconnectEvent]

/-- C8 witness: tearing down a service whose manager holds a live socket. -/
theorem service_disconnect_teardown_witness :
    ((SocketService.disconnect
        { manager :=
            { socket := some { handleId := 3, connected := true },
              reconnectAttempts := 0, maxReconnectAttempts := 5,
              isIntentionalDisconnect := false, nextHandleId := 4 },
          messageHandlers := [10, 11], userStatusHandlers := [12],
          typingHandlers := [13], messageEditedHandlers := [14],
          messageDeletedHandlers := [15] }).messageHandlers = []) ∧
      ((SocketService.disconnect
        { manager :=
            { socket := some { handleId := 3, connected := true },
              reconnectAttempts := 0, maxReconnectAttempts := 5,
              isIntentionalDisconnect := false, nextHandleId := 4 },
          messageHandlers := [10, 11], userStatusHandlers := [12],
          typingHandlers := [13], messageEditedHandlers := [14],
          messageDeletedHandlers := [15] }).manager.isIntentionalDisconnect
        = true) :=
  ⟨(service_disconnect_teardown _).1,
    ((service_disconnect_teardown
      { manager :=
          { socket := some { handleId := 3, connected := true },
            reconnectAttempts := 0, maxReconnectAttempts := 5,
            isIntentionalDisconnect := false, nextHandleId := 4 },
        messageHandlers := [10, 11], userStatusHandlers := [12],
        typingHandlers := [13], messageEditedHandlers := [14],
        messageDeletedHandlers := [15] }).2.2.2.2.2.2 rfl).1⟩

/-- C6: the message edit endpoint, for a found message and valid non-empty
content, succeeds exactly for the sender within 15 minutes: success stores
the trimmed content with `editedAt = now` and broadcasts `message:edited`
with `\x7bmessageId, chatId, content, editedAt\x7d`; a non-sender caller or a
message older than 15 minutes gets a Forbidden error with the stored
collection unchanged and nothing broadcast. -/
theorem patch_message_edit_rules (db : List StoredMessage)
    (messageId callerId content : String) (now : Nat) (message : StoredMessage)
    (hfind : db.find? (fun m => m.id == messageId) = some message)
    (hc0 : content ≠ "") (hc1 : jsTrim content ≠ "")
    (hc2 : (jsTrim content).length ≤ 5000) :
    (message.senderId = callerId → now - message.timestamp ≤ fifteenMinutesInMs →
      patchMessage true db messageId callerId content now =
        (db.map (fun m => if m.id == messageId then
            { message with content := jsTrim content, editedAt := some now }
          else m),
         some { messageId := message.id, chatId := message.chatId,
                content := jsTrim content, editedAt := now },
         .ok { message with content := jsTrim content, editedAt := some now })) ∧
    (message.senderId ≠ callerId →
      patchMessage true db messageId callerId content now =
        (db, none, .error (.forbidden "You can only edit your own messages"))) ∧
    (message.senderId = callerId → fifteenMinutesInMs < now - message.timestamp →
      patchMessage true db messageId callerId content now =
        (db, none, .error (.forbidden
          "Messages can only be edited within 15 minutes of sending"))) := by
  have hlen : ¬ (5000 < (jsTrim content).length) := by omega
  refine ⟨fun hsend hage => ?_, fun hsend => ?_, fun hsend hage => ?_⟩
  · have hage' : ¬ (fifteenMinutesInMs < now - message.timestamp) := by omega
    simp [patchMessage, hc0, hc1, hlen, hfind, hsend, hage']
  · simp [patchMessage, hc0, hc1, hlen, hfind, hsend]
  · simp [patchMessage, hc0, hc1, hlen, hfind, hsend, hage]

/-- C6 witness: a concrete in-window edit by the sender, and a concrete
non-sender rejection. -/
theorem patch_message_edit_rules_witness :
    patchMessage true
        [{ id := "m1", chatId := "c1", senderId := "u1", content := "hi",
            media := none, editedAt := none, deletedFor := [],
            timestamp := 0 }] "m1" "u1" "hi!" 60000 =
      ([{ id := "m1", chatId := "c1", senderId := "u1", content := "hi!",
          media := none, editedAt := some 60000, deletedFor := [],
          timestamp := 0 }],
        some { messageId := "m1", chatId := "c1", content := "hi!",
               editedAt := 60000 },
        .ok { id := "m1", chatId := "c1", senderId := "u1", content := "hi!",
              media := none, editedAt := some 60000, deletedFor := [],
              timestamp := 0 }) ∧
      patchMessage true
        [{ id := "m1", chatId := "c1", senderId := "u1", content := "hi",
            media := none, editedAt := none, deletedFor := [],
            timestamp := 0 }] "m1" "u2" "hi!" 60000 =
      ([{ id := "m1", chatId := "c1", senderId := "u1", content := "hi",
          media := none, editedAt := none, deletedFor := [],
          timestamp := 0 }], none,
        .error (.forbidden "You can only edit your own messages")) :=
  ⟨by
    have h := (patch_message_edit_rules
      [{ id := "m1", chatId := "c1", senderId := "u1", content := "hi",
          media := none, editedAt := none, deletedFor := [], timestamp := 0 }]
      "m1" "u1" "hi!" 60000
      { id := "m1", chatId := "c1", senderId := "u1", content := "hi",
        media := none, editedAt := none, deletedFor := [], timestamp := 0 }
      rfl (by decide) (by decide) (by decide)).1 rfl (by decide)
    simpa using h,
   by
    have h := (patch_message_edit_rules
      [{ id := "m1", chatId := "c1", senderId := "u1", content := "hi",
          media := none, editedAt := none, deletedFor := [], timestamp := 0 }]
      "m1" "u2" "hi!" 60000
      { id := "m1", chatId := "c1", senderId := "u1", content := "hi",
        media := none, editedAt := none, deletedFor := [], timestamp := 0 }
      rfl (by decide) (by decide) (by decide)).2.1 (by decide)
    simpa using h⟩

theorem createMessage_alignment (chats : List ChatDoc) (db : List StoredMessage)
    (newId chatId callerId : String) (content : Option String)
    (media : Option Media) (now : Nat) :
    ((createMessage true chats db newId chatId callerId content media now).2.1
        = none ∧
      ∃ e, (createMessage true chats db newId chatId callerId content media
        now).2.2 = Except.error e) ∨
    ((createMessage true chats db newId chatId callerId content media now).2.1
        = some { messageId := newId, chatId := chatId, senderId := callerId,
                 content := jsTrim (content.getD ""), timestamp := now } ∧
      ∃ m, (createMessage true chats db newId chatId callerId content media
        now).2.2 = Except.ok m) := by
  cases media with
  | none =>
    unfold createMessage
    by_cases h1 : jsTrim (content.getD "") = "" <;>
    by_cases h2 : 5000 < (jsTrim (content.getD "")).length <;>
    simp [h1, h2] <;>
    (repeat' split) <;>
    simp_all
  | some m =>
    unfold createMessage
    by_cases h1 : jsTrim (content.getD "") = "" <;>
    by_cases h2 : 5000 < (jsTrim (content.getD "")).length <;>
    simp [h1, h2] <;>
    (repeat' split) <;>
    simp_all

theorem patchMessage_alignment (db : List StoredMessage)
    (messageId callerId content : String) (now : Nat) :
    ((patchMessage true db messageId callerId content now).2.1 = none ∧
      ∃ e, (patchMessage true db messageId callerId content now).2.2
        = Except.error e) ∨
    (∃ u, (patchMessage true db messageId callerId content now).2.2
        = Except.ok u ∧
      (patchMessage true db messageId callerId content now).2.1
        = some { messageId := u.id, chatId := u.chatId, content := u.content,
                 editedAt := now }) := by
  unfold patchMessage
  by_cases h1 : jsTrim content = "" <;>
  by_cases h2 : 5000 < (jsTrim content).length <;>
  simp [h1, h2] <;>
  (repeat' split) <;>
  simp_all

theorem deleteMessage_alignment (chats : List ChatDoc) (db : List StoredMessage)
    (messageId callerId : String) (fa : Bool) (now : Nat)
    (message : StoredMessage)
    (hfind : db.find? (fun m => m.id == messageId) = some message) :
    ((deleteMessage true chats db messageId callerId fa now).2.1 = none ∧
      ∃ e, (deleteMessage true chats db messageId callerId fa now).2.2
        = Except.error e) ∨
    (fa = true ∧
      (deleteMessage true chats db messageId callerId fa now).2.2 = .ok () ∧
      (deleteMessage true chats db messageId callerId fa now).2.1
        = some { messageId := messageId, chatId := message.chatId }) ∨
    (fa = false ∧
      (deleteMessage true chats db messageId callerId fa now).2.2 = .ok () ∧
      (deleteMessage true chats db messageId callerId fa now).2.1 = none) := by
  unfold deleteMessage
  rw [hfind]
  repeat' split
  all_goals simp_all

/-- C9: with the socket handler available, the REST message layer broadcasts
at exactly the three durable-mutation points with minimal payloads: a
successful create broadcasts `\x7bmessageId, chatId, senderId, content,
timestamp\x7d`, a successful edit broadcasts `\x7bmessageId, chatId, content,
editedAt\x7d`, a successful hard delete (forAll) broadcasts `\x7bmessageId,
chatId\x7d`; every failed request broadcasts nothing, and a soft delete
(forAll = false) never broadcasts, success included. -/
theorem broadcast_call_points (chats : List ChatDoc) (db : List StoredMessage)
    (newId chatId messageId callerId : String) (content : Option String)
    (econtent : String) (media : Option Media) (now : Nat)
    (message : StoredMessage)
    (hfind : db.find? (fun m => m.id == messageId) = some message) :
    (∀ msg,
      (createMessage true chats db newId chatId callerId content media now).2.2
          = .ok msg →
        (createMessage true chats db newId chatId callerId content media now).2.1
          = some { messageId := newId, chatId := chatId, senderId := callerId,
                   content := jsTrim (content.getD ""), timestamp := now }) ∧
    (∀ e,
      (createMessage true chats db newId chatId callerId content media now).2.2
          = .error e →
        (createMessage true chats db newId chatId callerId content media now).2.1
          = none) ∧
    (∀ u,
      (patchMessage true db messageId callerId econtent now).2.2 = .ok u →
        (patchMessage true db messageId callerId econtent now).2.1
          = some { messageId := u.id, chatId := u.chatId, content := u.content,
                   editedAt := now }) ∧
    (∀ e,
      (patchMessage true db messageId callerId econtent now).2.2 = .error e →
        (patchMessage true db messageId callerId econtent now).2.1 = none) ∧
    ((deleteMessage true chats db messageId callerId true now).2.2 = .ok () →
      (deleteMessage true chats db messageId callerId true now).2.1
        = some { messageId := messageId, chatId := message.chatId }) ∧
    (∀ e fa,
      (deleteMessage true chats db messageId callerId fa now).2.2 = .error e →
        (deleteMessage true chats db messageId callerId fa now).2.1 = none) ∧
    ((deleteMessage true chats db messageId callerId false now).2.1 = none) := by
  refine ⟨fun msg h => ?_, fun e h => ?_, fun u h => ?_, fun e h => ?_,
    fun h => ?_, fun e fa h => ?_, ?_⟩
  · rcases createMessage_alignment chats db newId chatId callerId content media
        now with ⟨_, e, he⟩ | ⟨hb, _⟩
    · rw [he] at h; exact absurd h (by simp)
    · exact hb
  · rcases createMessage_alignment chats db newId chatId callerId content media
        now with ⟨hb, _⟩ | ⟨_, m, hm⟩
    · exact hb
    · rw [hm] at h; exact absurd h (by simp)
  · rcases patchMessage_alignment db messageId callerId econtent now with
      ⟨_, e, he⟩ | ⟨u', hu', hb⟩
    · rw [he] at h; exact absurd h (by simp)
    · rw [hu'] at h
      obtain rfl : u' = u := by simpa using h
      exact hb
  · rcases patchMessage_alignment db messageId callerId econtent now with
      ⟨hb, _⟩ | ⟨u', hu', _⟩
    · exact hb
    · rw [hu'] at h; exact absurd h (by simp)
  · rcases deleteMessage_alignment chats db messageId callerId true now message
        hfind with ⟨_, e, he⟩ | ⟨_, _, hb⟩ | ⟨hfa, _, _⟩
    · rw [he] at h; exact absurd h (by simp)
    · exact hb
    · exact absurd hfa (by simp)
  · rcases deleteMessage_alignment chats db messageId callerId fa now message
        hfind with ⟨hb, _⟩ | ⟨_, hok, _⟩ | ⟨_, _, hb⟩
    · exact hb
    · rw [hok] at h; exact absurd h (by simp)
    · exact hb
  · rcases deleteMessage_alignment chats db messageId callerId false now message
        hfind with ⟨hb, _⟩ | ⟨hfa, _, _⟩ | ⟨_, _, hb⟩
    · exact hb
    · exact absurd hfa (by simp)
    · exact hb

/-- C9 witness: a concrete create broadcast and a concrete silent soft
delete on the same one-message store. -/
theorem broadcast_call_points_witness :
    (createMessage true [{ id := "c1", participants := ["u1", "u2"] }]
        [{ id := "m0", chatId := "c1", senderId := "u1", content := "yo",
            media := none, editedAt := none, deletedFor := [],
            timestamp := 0 }]
        "m1" "c1" "u1" (some "hi") none 0).2.1
      = some { messageId := "m1", chatId := "c1", senderId := "u1",
               content := "hi", timestamp := 0 } ∧
    (deleteMessage true [{ id := "c1", participants := ["u1", "u2"] }]
        [{ id := "m1", chatId := "c1", senderId := "u1", content := "hi",
            media := none, editedAt := none, deletedFor := [],
            timestamp := 0 }] "m1" "u2" false 0).2.1 = none :=
  ⟨(broadcast_call_points [{ id := "c1", participants := ["u1", "u2"] }]
      [{ id := "m0", chatId := "c1", senderId := "u1", content := "yo",
          media := none, editedAt := none, deletedFor := [], timestamp := 0 }]
      "m1" "c1" "m0" "u1" (some "hi") "x" none 0
      { id := "m0", chatId := "c1", senderId := "u1", content := "yo",
        media := none, editedAt := none, deletedFor := [], timestamp := 0 }
      (by decide)).1 _ rfl,
    (broadcast_call_points [{ id := "c1", participants := ["u1", "u2"] }]
      [{ id := "m1", chatId := "c1", senderId := "u1", content := "hi",
          media := none, editedAt := none, deletedFor := [], timestamp := 0 }]
      "m1" "c1" "m1" "u2" (some "hi") "x" none 0
      { id := "m1", chatId := "c1", senderId := "u1", content := "hi",
        media := none, editedAt := none, deletedFor := [], timestamp := 0 }
      (by decide)).2.2.2.2.2.2⟩

/-- C3 witness: a concrete double delivery collapses to one entry. -/
theorem onNewMessage_idempotent_witness :
    hasId [] "m1" = false ∧
      entriesWithId
        (onNewMessage
          (onNewMessage []
            { id := "m1", chatId := "c1", senderId := "u1", content := "hi",
              media := none, editedAt := none, deletedFor := [],
              timestamp := "t0", sender := none })
          { id := "m1", chatId := "c1", senderId := "u1", content := "hi",
            media := none, editedAt := none, deletedFor := [],
            timestamp := "t0", sender := none }) "m1" =
        [withSender
          { id := "m1", chatId := "c1", senderId := "u1", content := "hi",
            media := none, editedAt := none, deletedFor := [],
            timestamp := "t0", sender := none }] :=
  ⟨rfl,
    (onNewMessage_idempotent []
      { id := "m1", chatId := "c1", senderId := "u1", content := "hi",
        media := none, editedAt := none, deletedFor := [],
        timestamp := "t0", sender := none }).2 rfl⟩

theorem mem_addUser (l : List String) (a u : String) :
    u ∈ addUser l a ↔ u ∈ l ∨ u = a := by
  unfold addUser
  split
  · rename_i h
    have ha : a ∈ l := by simpa using h
    constructor
    · exact fun hu => Or.inl hu
    · rintro (hu | rfl)
      · exact hu
      · exact ha
  · simp

theorem covered_fireDue (st : TypingView) (t : Nat) (h : Covered st) :
    Covered (fireDue st t) := by
  intro u hu
  rw [fireDue] at hu
  simp only [List.mem_filter] at hu
  obtain ⟨hmem, hpred⟩ := hu
  obtain ⟨e, he⟩ := h u hmem
  have hnodue : ∀ p ∈ st.timers, ¬ (p.1 = u ∧ p.2 ≤ t) := by
    simpa using hpred
  have hte : t < e := by
    have h2 := hnodue (u, e) he
    simp at h2
    omega
  refine ⟨e, ?_⟩
  rw [fireDue]
  simp only [List.mem_filter]
  exact ⟨he, by simpa using hte⟩

theorem covered_onTypingEvent (sel : String) (st : TypingView)
    (ev : TypingEventIn) (now : Nat) (h : Covered st) :
    Covered (onTypingEvent sel st ev now) := by
  unfold onTypingEvent
  split
  · exact h
  · split
    · intro u hu
      rcases (mem_addUser _ _ _).1 hu with hul | rfl
      · by_cases huv : u = ev.userId
        · subst huv
          exact ⟨now + 5000, by simp⟩
        · obtain ⟨e, he⟩ := h u hul
          refine ⟨e, ?_⟩
          simp only [List.mem_append, List.mem_filter]
          exact Or.inl ⟨he, by simpa using huv⟩
      · exact ⟨now + 5000, by simp⟩
    · intro u hu
      simp only [List.mem_filter] at hu
      obtain ⟨hul, hne⟩ := hu
      obtain ⟨e, he⟩ := h u hul
      refine ⟨e, ?_⟩
      simp only [List.mem_filter]
      exact ⟨he, by simpa using hne⟩

theorem timersFrom_fireDue (sel : String) (evs : List (Nat × TypingEventIn))
    (st : TypingView) (t : Nat) (h : TimersFrom sel evs st) :
    TimersFrom sel evs (fireDue st t) := by
  intro p hp
  apply h
  rw [fireDue] at hp
  exact (List.mem_filter.1 hp).1

theorem timersFrom_onTypingEvent (sel : String)
    (evs : List (Nat × TypingEventIn)) (st : TypingView) (ev : TypingEventIn)
    (now : Nat) (h : TimersFrom sel evs st) (hq : (now, ev) ∈ evs) :
    TimersFrom sel evs (onTypingEvent sel st ev now) := by
  unfold onTypingEvent
  split
  · exact h
  · rename_i hguard
    split
    · rename_i htyping
      intro p hp
      simp only [List.mem_append, List.mem_filter] at hp
      rcases hp with ⟨hmem, _⟩ | hnew
      · exact h p hmem
      · have hp' : p = (ev.userId, now + 5000) := by simpa using hnew
        subst hp'
        exact ⟨(now, ev), hq, rfl, not_ne_iff.mp hguard, htyping, rfl⟩
    · intro p hp
      exact h p (List.mem_filter.1 hp).1

theorem typing_trace_invariant (sel : String)
    (all : List (Nat × TypingEventIn)) :
    ∀ (suffix : List (Nat × TypingEventIn)) (st : TypingView),
      (∀ q ∈ suffix, q ∈ all) → Covered st → TimersFrom sel all st →
      Covered (suffix.foldl (typingStep sel) st) ∧
        TimersFrom sel all (suffix.foldl (typingStep sel) st) := by
  intro suffix
  induction suffix with
  | nil => exact fun st _ hc ht => ⟨hc, ht⟩
  | cons q qs ih =>
    intro st hsub hc ht
    rw [List.foldl_cons]
    refine ih _ (fun q' hq' => hsub q' (List.mem_cons_of_mem _ hq')) ?_ ?_
    · exact covered_onTypingEvent _ _ _ _ (covered_fireDue _ _ hc)
    · exact timersFrom_onTypingEvent sel all _ _ _
        (timersFrom_fireDue sel all st q.1 ht)
        (hsub q (List.mem_cons_self q qs))

theorem observeTyping_bound (sel : String) (evs : List (Nat × TypingEventIn))
    (t : Nat) (u : String)
    (hu : u ∈ (observeTyping sel evs t).typingUsers) :
    ∃ q ∈ evs, q.2.userId = u ∧ q.2.chatId = sel ∧ q.2.isTyping = true ∧
      t < q.1 + 5000 := by
  obtain ⟨hc, ht⟩ := typing_trace_invariant sel evs evs emptyTypingView
    (fun q hq => hq)
    (by intro v hv; simp [emptyTypingView] at hv)
    (by intro p hp; simp [emptyTypingView] at hp)
  rw [observeTyping, fireDue] at hu
  simp only [List.mem_filter] at hu
  obtain ⟨hmem, hpred⟩ := hu
  obtain ⟨e, he⟩ := hc u hmem
  have hnodue : ∀ p ∈ (runTypingTrace sel evs).timers, ¬ (p.1 = u ∧ p.2 ≤ t) := by
    simpa using hpred
  have hte : t < e := by
    have h2 := hnodue (u, e) he
    simp at h2
    omega
  obtain ⟨q, hqmem, hq1, hq2, hq3, hq4⟩ := ht (u, e) he
  exact ⟨q, hqmem, hq1, hq2, hq3, by omega⟩

/-- C5: the client-local typing expiry.  (i) a typing signal for the open
chat re-arms the user's timer: afterwards exactly one timer is armed for
them, firing 5000 ms after the signal; (ii) an `isTyping=false` signal
removes the user immediately and cancels their pending timer; (iii) for any
timed trace of signals, a user still shown typing at observation time `t`
has sent a typing signal less than 5000 ms before `t` — nobody remains past
5 s after their most recent signal; (iv) when a due timer fires the user is
auto-cleared, and firing is idempotent (the timer is deleted with its first
firing, so the clear happens exactly once). -/
theorem typing_indicator_expiry (sel : String) (st : TypingView)
    (ev : TypingEventIn) (now : Nat) (u : String)
    (evs : List (Nat × TypingEventIn)) (t : Nat) :
    (ev.chatId = sel → ev.isTyping = true →
      ((onTypingEvent sel st ev now).timers.filter
          (fun p => p.1 == ev.userId)) = [(ev.userId, now + 5000)] ∧
        ev.userId ∈ (onTypingEvent sel st ev now).typingUsers) ∧
    (ev.chatId = sel → ev.isTyping = false →
      ev.userId ∉ (onTypingEvent sel st ev now).typingUsers ∧
        ((onTypingEvent sel st ev now).timers.filter
          (fun p => p.1 == ev.userId)) = []) ∧
    (u ∈ (observeTyping sel evs t).typingUsers →
      ∃ q ∈ evs, q.2.userId = u ∧ q.2.chatId = sel ∧ q.2.isTyping = true ∧
        t < q.1 + 5000) ∧
    (∀ e, (u, e) ∈ st.timers → e ≤ t →
      u ∉ (fireDue st t).typingUsers) ∧
    fireDue (fireDue st t) t = fireDue st t := by
  refine ⟨fun hchat htyp => ?_, fun hchat htyp => ?_,
    observeTyping_bound sel evs t u, fun e he het => ?_, ?_⟩
  · unfold onTypingEvent
    rw [if_neg (by simp [hchat]), if_pos htyp]
    constructor
    · rw [List.filter_append]
      have h1 : ((st.timers.filter
          (fun p => decide (p.1 ≠ ev.userId))).filter
            (fun p => p.1 == ev.userId)) = [] := by
        rw [List.filter_eq_nil_iff]
        intro p hp
        have hne : p.1 ≠ ev.userId := by
          simpa using (List.mem_filter.1 hp).2
        simp [hne]
      rw [h1]
      simp
    · exact (mem_addUser _ _ _).2 (Or.inr rfl)
  · unfold onTypingEvent
    rw [if_neg (by simp [hchat]), if_neg (by simp [htyp])]
    constructor
    · intro hmem
      have := (List.mem_filter.1 hmem).2
      simp at this
    · rw [List.filter_eq_nil_iff]
      intro p hp
      have hne : p.1 ≠ ev.userId := by
        simpa using (List.mem_filter.1 hp).2
      simp [hne]
  · intro hmem
    rw [fireDue] at hmem
    have hall : ∀ p ∈ st.timers, ¬ (p.1 = u ∧ p.2 ≤ t) := by
      simpa using (List.mem_filter.1 hmem).2
    exact hall (u, e) he ⟨rfl, het⟩
  · have htimers : ((fireDue st t).timers.filter (fun p => decide (t < p.2)))
        = (fireDue st t).timers := by
      rw [List.filter_eq_self]
      intro p hp
      rw [fireDue] at hp
      exact (List.mem_filter.1 hp).2
    have husers : ((fireDue st t).typingUsers.filter
        (fun v => !((fireDue st t).timers.any
          (fun p => decide (p.1 = v ∧ p.2 ≤ t)))))
        = (fireDue st t).typingUsers := by
      rw [List.filter_eq_self]
      intro v _
      simp only [Bool.not_eq_eq_eq_not, Bool.not_true, List.any_eq_false]
      intro p hp
      rw [fireDue] at hp
      have hlt : t < p.2 := by simpa using (List.mem_filter.1 hp).2
      simp only [decide_eq_true_eq, not_and]
      intro _
      omega
    show (⟨((fireDue st t).typingUsers.filter
        (fun v => !((fireDue st t).timers.any
          (fun p => decide (p.1 = v ∧ p.2 ≤ t))))),
      ((fireDue st t).timers.filter (fun p => decide (t < p.2)))⟩ : TypingView)
      = fireDue st t
    rw [husers, htimers]

/-- C5 witness: a single typing signal at time 0 in the open chat keeps the
user visible at 3000 ms, and the theorem locates that signal within the
5-second window. -/
theorem typing_indicator_expiry_witness :
    "A" ∈ (observeTyping "C"
        [(0, { userId := "A", chatId := "C", isTyping := true })]
        3000).typingUsers ∧
      ∃ q ∈ [((0 : Nat),
          { userId := "A", chatId := "C", isTyping := true : TypingEventIn })],
        q.2.userId = "A" ∧ q.2.chatId = "C" ∧ q.2.isTyping = true ∧
          3000 < q.1 + 5000 :=
  ⟨by decide,
    (typing_indicator_expiry "C" emptyTypingView
      { userId := "A", chatId := "C", isTyping := true } 0 "A"
      [(0, { userId := "A", chatId := "C", isTyping := true })]
      3000).2.2.1 (by decide)⟩

end Lattera
